import Mathlib

/-!
Shallow embedding of the agent-vetting / admin-permission workflow of the
Real-Estate-Net repository (accounts app: models.py, admin.py, views.py),
with theorems checking the specification's claims against it.

Conventions: Django model rows become Lean structures; timestamps are `Nat`
(an abstract clock value passed in as `now`); the JSON permission dictionary
becomes an association list `List (String × Bool)` with `dict.get(k, False)`
semantics; querysets become `List`s; a Django admin bulk action becomes a
function from the list of selected rows to the updated rows plus the count
of rows actually updated.
-/

namespace RealEstateNet

/-- One row of the custom `User` model (accounts/models.py), restricted to the
fields the workflow reads or writes: `is_active`, `is_verified`,
`verification_date`, `user_type` (a plain string in the source: one of
buyer/broker/agent/admin/super_admin), `is_admin_active` and the JSON
`admin_permissions` dictionary. -/
structure Account where
  is_active : Bool
  is_verified : Bool
  verification_date : Option Nat
  user_type : String
  is_admin_active : Bool
  admin_permissions : List (String × Bool)
deriving DecidableEq

/-- `permissions.get(key, False)`: look a key up in the JSON permission
dictionary, defaulting to `false` when the key is absent. -/
def permGet (perms : List (String × Bool)) (key : String) : Bool :=
  match perms with
  | [] => false
  | (k, v) :: rest => if k == key then v else permGet rest key

/-- `permissions[key] = value`: set a key in the JSON permission dictionary
(overwrite when present, append when absent). -/
def permSet (perms : List (String × Bool)) (key : String) (value : Bool) :
    List (String × Bool) :=
  match perms with
  | [] => [(key, value)]
  | (k, v) :: rest =>
    if k == key then (key, value) :: rest else (k, v) :: permSet rest key value

/-- `User.can_manage_properties` (models.py): super admin always passes;
otherwise the check is `is_admin_active and admin_permissions.get(key, False)`. -/
def can_manage_properties (u : Account) : Bool :=
  if u.user_type == "super_admin" then true
  else u.is_admin_active && permGet u.admin_permissions "manage_properties"

/-- `User.can_manage_users` (models.py). -/
def can_manage_users (u : Account) : Bool :=
  if u.user_type == "super_admin" then true
  else u.is_admin_active && permGet u.admin_permissions "manage_users"

/-- `User.can_manage_premium` (models.py). -/
def can_manage_premium (u : Account) : Bool :=
  if u.user_type == "super_admin" then true
  else u.is_admin_active && permGet u.admin_permissions "manage_premium"

/-- `User.can_manage_payments` (models.py). -/
def can_manage_payments (u : Account) : Bool :=
  if u.user_type == "super_admin" then true
  else u.is_admin_active && permGet u.admin_permissions "manage_payments"

/-- `User.can_manage_system` (models.py): consults the `system_settings` key. -/
def can_manage_system (u : Account) : Bool :=
  if u.user_type == "super_admin" then true
  else u.is_admin_active && permGet u.admin_permissions "system_settings"

/-- `User.can_view_logs` (models.py). -/
def can_view_logs (u : Account) : Bool :=
  if u.user_type == "super_admin" then true
  else u.is_admin_active && permGet u.admin_permissions "view_logs"

/-- `User.can_delete_data` (models.py). -/
def can_delete_data (u : Account) : Bool :=
  if u.user_type == "super_admin" then true
  else u.is_admin_active && permGet u.admin_permissions "delete_data"

/-- `User.can_export_data` (models.py). -/
def can_export_data (u : Account) : Bool :=
  if u.user_type == "super_admin" then true
  else u.is_admin_active && permGet u.admin_permissions "export_data"

/-- `User.can_manage_content` (models.py). -/
def can_manage_content (u : Account) : Bool :=
  if u.user_type == "super_admin" then true
  else u.is_admin_active && permGet u.admin_permissions "manage_content"

/-- `User.can_manage_admins` (models.py): super admin only, no map lookup. -/
def can_manage_admins (u : Account) : Bool :=
  u.user_type == "super_admin"

/-- The enumerated capabilities, one per `can_*` predicate on `User`. -/
inductive Capability
  | manage_properties
  | manage_users
  | manage_premium
  | manage_payments
  | system_settings
  | view_logs
  | delete_data
  | export_data
  | manage_content
  | manage_admins
deriving DecidableEq

/-- The permissions-map key each capability checker consults. -/
def capKey : Capability → String
  | .manage_properties => "manage_properties"
  | .manage_users => "manage_users"
  | .manage_premium => "manage_premium"
  | .manage_payments => "manage_payments"
  | .system_settings => "system_settings"
  | .view_logs => "view_logs"
  | .delete_data => "delete_data"
  | .export_data => "export_data"
  | .manage_content => "manage_content"
  | .manage_admins => "manage_admins"

/-- The authorization gate `can(account, capability)`: dispatch to the
source's `can_*` method for the capability. -/
def can (u : Account) : Capability → Bool
  | .manage_properties => can_manage_properties u
  | .manage_users => can_manage_users u
  | .manage_premium => can_manage_premium u
  | .manage_payments => can_manage_payments u
  | .system_settings => can_manage_system u
  | .view_logs => can_view_logs u
  | .delete_data => can_delete_data u
  | .export_data => can_export_data u
  | .manage_content => can_manage_content u
  | .manage_admins => can_manage_admins u

/-- `User.get_admin_permissions` (models.py): an inactive admin account sees
the all-false permission dictionary; otherwise the stored dictionary. -/
def get_admin_permissions (u : Account) : List (String × Bool) :=
  if !u.is_admin_active then
    [("manage_users", false), ("manage_properties", false),
     ("manage_payments", false), ("manage_premium", false),
     ("manage_admins", false), ("system_settings", false),
     ("view_logs", false), ("delete_data", false),
     ("export_data", false), ("manage_content", false)]
  else u.admin_permissions

/-- One row of `RealEstateAgentApplication` (accounts/models.py), restricted
to the processing fields: `status` (pending / under_review / approved /
rejected / needs_info), `reviewed_at`, `reviewed_by`. -/
structure AgentApplication where
  status : String
  reviewed_at : Option Nat
  reviewed_by : Option Nat
deriving DecidableEq

/-- An application together with its linked applicant account (the
`applicant` one-to-one relation). -/
structure AppState where
  app : AgentApplication
  applicant : Account
deriving DecidableEq

/-- `RealEstateAgentApplicationAdmin.save_model` (accounts/admin.py): the
single-application review path. The argument state carries the object as
the admin form saved it, i.e. `s.app.status` is already the NEW status;
`change` is Django's edit-vs-add flag and `statusChanged` is
`'status' in form.changed_data`. Only when the edit changed the status and
the new status is not `pending` are `reviewed_at` / `reviewed_by` stamped
and the account cascade applied. -/
def save_model (now reviewerId : Nat) (change statusChanged : Bool)
    (s : AppState) : AppState :=
  if change && statusChanged && !(s.app.status == "pending") then
    let app1 : AgentApplication :=
      { s.app with reviewed_at := some now, reviewed_by := some reviewerId }
    if s.app.status == "approved" then
      { app := app1,
        applicant :=
          { s.applicant with
              is_active := true, is_verified := true,
              verification_date := some now } }
    else if s.app.status == "rejected" || s.app.status == "needs_info" then
      { app := app1,
        applicant :=
          { s.applicant with is_active := false, is_verified := false } }
    else { s with app := app1 }
  else s

/-- One invocation of the single-application review path: the admin edits
the status field to `target` and saves; `'status' in form.changed_data`
holds exactly when the target differs from the stored status. -/
def singleReview (now reviewerId : Nat) (target : String) (s : AppState) :
    AppState :=
  save_model now reviewerId true (!(s.app.status == target))
    { s with app := { s.app with status := target } }

/-- The filter of the `approve_applications` bulk action:
`status__in=['pending', 'under_review']`. -/
def eligibleApprove (s : AppState) : Bool :=
  s.app.status == "pending" || s.app.status == "under_review"

/-- The loop body of `approve_applications`: stamp the application approved
and reviewed, then activate and verify the applicant account. -/
def approveOne (now reviewerId : Nat) (s : AppState) : AppState :=
  { app :=
      { status := "approved", reviewed_at := some now,
        reviewed_by := some reviewerId },
    applicant :=
      { s.applicant with
          is_active := true, is_verified := true,
          verification_date := some now } }

/-- `RealEstateAgentApplicationAdmin.approve_applications` (admin.py): loop
over the selected applications whose status passes the filter, transition
each and count it; rows failing the filter are left untouched. Returns the
updated rows and the count of rows actually transitioned. -/
def approve_applications (now reviewerId : Nat) (qs : List AppState) :
    List AppState × Nat :=
  match qs with
  | [] => ([], 0)
  | s :: rest =>
    let r := approve_applications now reviewerId rest
    if eligibleApprove s then (approveOne now reviewerId s :: r.1, r.2 + 1)
    else (s :: r.1, r.2)

/-- The filter of the `reject_applications` bulk action:
`status__in=['pending', 'under_review', 'needs_info']`. -/
def eligibleReject (s : AppState) : Bool :=
  s.app.status == "pending" || s.app.status == "under_review" ||
    s.app.status == "needs_info"

/-- `RealEstateAgentApplicationAdmin.reject_applications` (admin.py): a
queryset `update` setting status, reviewed_at and reviewed_by on the rows
passing the filter. The applicant account is not touched. Returns the
updated rows and the number of rows updated. -/
def reject_applications (now reviewerId : Nat) (qs : List AppState) :
    List AppState × Nat :=
  match qs with
  | [] => ([], 0)
  | s :: rest =>
    let r := reject_applications now reviewerId rest
    if eligibleReject s then
      ({ s with app :=
          { status := "rejected", reviewed_at := some now,
            reviewed_by := some reviewerId } } :: r.1, r.2 + 1)
    else (s :: r.1, r.2)

/-- The filter of the `request_more_info` bulk action:
`status__in=['pending', 'under_review']`. -/
def eligibleRequestInfo (s : AppState) : Bool :=
  s.app.status == "pending" || s.app.status == "under_review"

/-- `RealEstateAgentApplicationAdmin.request_more_info` (admin.py): a
queryset `update` setting status to needs_info plus the review stamps on
rows passing the filter; the applicant account is not touched. -/
def request_more_info (now reviewerId : Nat) (qs : List AppState) :
    List AppState × Nat :=
  match qs with
  | [] => ([], 0)
  | s :: rest =>
    let r := request_more_info now reviewerId rest
    if eligibleRequestInfo s then
      ({ s with app :=
          { status := "needs_info", reviewed_at := some now,
            reviewed_by := some reviewerId } } :: r.1, r.2 + 1)
    else (s :: r.1, r.2)

/-- The `register` view (accounts/views.py), acting on the freshly created
user record: an agent account is held back (`is_active=False`,
`is_verified=False`, pending application); buyers and brokers are activated
and verified immediately with `verification_date=now`. -/
def register (now : Nat) (u : Account) : Account :=
  if u.user_type == "agent" then
    { u with is_active := false, is_verified := false }
  else
    { u with
        is_active := true, is_verified := true,
        verification_date := some now }

/-- One row of `AdminActivityLog` (accounts/models.py), restricted to the
fields the derivation touches. -/
structure LogEntry where
  adminId : Nat
  action_type : String
  description : String
  target_model : Option String
  target_id : Option Nat
  is_high_risk : Bool
deriving DecidableEq

/-- The fixed high-risk action set of `AdminActivityLog.save`. -/
def high_risk_actions : List String :=
  ["delete", "ban", "refund", "permission"]

/-- `AdminActivityLog.save` (models.py): before the row is stored,
`is_high_risk` is forced to true when the action type is in the high-risk
set; otherwise the caller-supplied value is kept. -/
def logSave (e : LogEntry) : LogEntry :=
  if high_risk_actions.contains e.action_type then
    { e with is_high_risk := true }
  else e

/-- One row of `AdminNotification` (models.py), restricted to the fields the
workflow writes. -/
structure AdminNotification where
  title : String
  notification_type : String
  priority : String
  related_adminId : Nat
deriving DecidableEq

/-- One row of `AdminPermissionRequest` (accounts/models.py). -/
structure PermRequest where
  id : Nat
  requesting_adminId : Nat
  permission_type : String
  reason : String
  justification : String
  status : String
  reviewed_at : Option Nat
  reviewed_by : Option Nat
  review_notes : String
  granted_at : Option Nat
deriving DecidableEq

/-- Outcome of the permission-request submission view. -/
inductive SubmitOutcome
  | missingFields
  | alreadyGranted
  | alreadyPending
  | created (r : PermRequest)
deriving DecidableEq

/-- The `normal_admin_request_permission` view (accounts/views.py), POST
branch: empty form fields are refused; a permission already granted per
`get_admin_permissions` is refused with the already-granted message; an
existing row with the same `(requesting_admin, permission_type)` and
status `pending` is refused with the already-pending message; otherwise a
new pending request row is created. -/
def normal_admin_request_permission (userId : Nat) (user : Account)
    (existing : List PermRequest) (newId : Nat)
    (permission_type reason justification : String) : SubmitOutcome :=
  if permission_type == "" || reason == "" || justification == "" then
    .missingFields
  else if permGet (get_admin_permissions user) permission_type then
    .alreadyGranted
  else if existing.any (fun r =>
      r.requesting_adminId == userId && r.permission_type == permission_type
        && r.status == "pending") then
    .alreadyPending
  else
    .created
      { id := newId, requesting_adminId := userId,
        permission_type := permission_type, reason := reason,
        justification := justification, status := "pending",
        reviewed_at := none, reviewed_by := none, review_notes := "",
        granted_at := none }

/-- Does saving `req` with status `newStatus` violate the
`unique_together = ('requesting_admin', 'permission_type', 'status')`
constraint against the other stored rows? -/
def uniqueConflict (stored : List PermRequest) (req : PermRequest)
    (newStatus : String) : Bool :=
  stored.any (fun r =>
    !(r.id == req.id) && r.requesting_adminId == req.requesting_adminId
      && r.permission_type == req.permission_type && r.status == newStatus)

/-- `AdminPermissionRequest.approve_request` (models.py), played against a
store of request rows and the table of admin accounts. The method first
sets the requesting admin's permission bit and saves that account, and only
then saves the request row with status `approved`; when that second save
violates the unique-together constraint the database raises an integrity
error, so the function returns the state as of the failure — admin bit
already committed, request row unchanged — together with an error flag
(`true` = integrity error raised; log and notification are then never
written). -/
def approve_request (now superAdminId : Nat) (req : PermRequest)
    (admins : Nat → Account) (stored : List PermRequest) :
    (Nat → Account) × List PermRequest × Bool :=
  let admins1 : Nat → Account := fun i =>
    if i == req.requesting_adminId then
      let a := admins i
      { a with admin_permissions := permSet a.admin_permissions req.permission_type true }
    else admins i
  if uniqueConflict stored req "approved" then (admins1, stored, true)
  else
    (admins1,
     stored.map (fun r =>
       if r.id == req.id then
         { r with
             status := "approved", reviewed_at := some now,
             reviewed_by := some superAdminId, granted_at := some now }
       else r),
     false)

/-- Result of `AdminPermissionRequest.reject_request`: the request store
after the call, the requesting admin's account row after the call, the
audit log row and notification when they were written, and whether the
save raised the unique-together integrity error. -/
structure RejectOutcome where
  stored : List PermRequest
  admin : Account
  log : Option LogEntry
  notification : Option AdminNotification
  integrityError : Bool
deriving DecidableEq

/-- `AdminPermissionRequest.reject_request` (models.py), played against the
store of request rows: the method stamps the request rejected with the
reviewer, time and notes and calls `self.save()`. That save is subject to
the same `unique_together` constraint as in `approve_request`: when
another stored row already has the same (requesting_admin,
permission_type) with status `rejected`, the database raises an integrity
error, the store is unchanged and neither the audit log row nor the
notification is ever written. Otherwise the row is updated, an
`AdminActivityLog` row is created with `action_type='permission'` and
caller-supplied `is_high_risk=False` (then stored through `logSave`), and
a notification is created for the requester. The requesting admin's
account is never touched. -/
def reject_request (now superAdminId : Nat) (req : PermRequest)
    (admin : Account) (stored : List PermRequest) (reason : String) :
    RejectOutcome :=
  if uniqueConflict stored req "rejected" then
    { stored := stored, admin := admin, log := none, notification := none,
      integrityError := true }
  else
    { stored :=
        stored.map (fun r =>
          if r.id == req.id then
            { req with
                status := "rejected", reviewed_at := some now,
                reviewed_by := some superAdminId, review_notes := reason }
          else r),
      admin := admin,
      log := some (logSave
        { adminId := superAdminId, action_type := "permission",
          description := "Rejected permission request",
          target_model := some "AdminPermissionRequest",
          target_id := some req.id, is_high_risk := false }),
      notification := some
        { title := "Permission Request Rejected",
          notification_type := "permission_request", priority := "medium",
          related_adminId := req.requesting_adminId },
      integrityError := false }

/-- Spec-side predicate (P1's postcondition, for comparison with the code):
the application is approved with both review stamps set and the linked
account is active, verified and carries a verification timestamp — all
together. -/
def ApprovedAllSet (now reviewerId : Nat) (t : AppState) : Prop :=
  t.app.status = "approved" ∧ t.app.reviewed_at = some now ∧
    t.app.reviewed_by = some reviewerId ∧ t.applicant.is_active = true ∧
    t.applicant.is_verified = true ∧
    t.applicant.verification_date = some now

/-- A freshly registered, not yet verified agent account. -/
def agentAcct : Account :=
  { is_active := false, is_verified := false, verification_date := none,
    user_type := "agent", is_admin_active := false, admin_permissions := [] }

/-- A pending application by `agentAcct`. -/
def sPend : AppState :=
  { app := { status := "pending", reviewed_at := none, reviewed_by := none },
    applicant := agentAcct }

/-- A pending application whose applicant account is currently active and
verified. -/
def sActiveVerified : AppState :=
  { app := { status := "pending", reviewed_at := none, reviewed_by := none },
    applicant :=
      { is_active := true, is_verified := true, verification_date := some 1,
        user_type := "agent", is_admin_active := false,
        admin_permissions := [] } }

/-- An application already in the terminal status `approved`. -/
def sApproved : AppState :=
  { app :=
      { status := "approved", reviewed_at := some 1, reviewed_by := some 2 },
    applicant :=
      { is_active := true, is_verified := true, verification_date := some 1,
        user_type := "agent", is_admin_active := false,
        admin_permissions := [] } }

/-- An application in status `needs_info`. -/
def sNeedsInfo : AppState :=
  { app :=
      { status := "needs_info", reviewed_at := some 1, reviewed_by := some 2 },
    applicant := agentAcct }

/-- A buyer account whose admin bookkeeping fields were left set: role is
plain `buyer`, yet `is_admin_active` is true and the permission map grants
`manage_properties`. -/
def buyerWithAdminBits : Account :=
  { is_active := true, is_verified := true, verification_date := none,
    user_type := "buyer", is_admin_active := true,
    admin_permissions := [("manage_properties", true)] }

/-- An active normal admin with an empty permission map. -/
def normalAdmin : Account :=
  { is_active := true, is_verified := true, verification_date := none,
    user_type := "admin", is_admin_active := true, admin_permissions := [] }

/-- A pending permission request by admin account 2. -/
def reqPending : PermRequest :=
  { id := 5, requesting_adminId := 2, permission_type := "manage_users",
    reason := "r", justification := "j", status := "pending",
    reviewed_at := none, reviewed_by := none, review_notes := "",
    granted_at := none }

/-- An earlier, already approved request by the same admin for the same
permission. -/
def reqApprovedEarlier : PermRequest :=
  { id := 1, requesting_adminId := 2, permission_type := "manage_users",
    reason := "r0", justification := "j0", status := "approved",
    reviewed_at := some 1, reviewed_by := some 9, review_notes := "",
    granted_at := some 1 }

/-! Theorems settling the specification's claims against the embedding. -/

/-- C4: the audit-log writer stores `is_high_risk=true` whenever the action
type is in {delete, ban, refund, permission}, irrespective of the
caller-supplied value, and otherwise stores exactly the caller-supplied
value; no other field is altered. -/
theorem claim_C4_high_risk_derivation (e : LogEntry) :
    logSave e =
      { e with
          is_high_risk :=
            high_risk_actions.contains e.action_type || e.is_high_risk } := by
  unfold logSave
  cases h : high_risk_actions.contains e.action_type <;> simp [h]

/-- C3 counterexample: the capability predicate does not re-check the role
in its fallback branch — a `buyer` account with `is_admin_active=true` and
the `manage_properties` bit set is granted the capability, where the claim
requires every non-super_admin, non-admin account to be denied. -/
theorem claim_C3_counterexample :
    buyerWithAdminBits.user_type = "buyer" ∧
      buyerWithAdminBits.user_type ≠ "admin" ∧
      buyerWithAdminBits.user_type ≠ "super_admin" ∧
      can buyerWithAdminBits Capability.manage_properties = true := by
  refine ⟨rfl, by decide, by decide, ?_⟩
  decide

/-- C3 amended: the gate grants every capability to `super_admin`
unconditionally; for every other account and every capability except
`manage_admins` it grants iff `is_admin_active` is true and the permission
map has the capability's key set to true — the role string is not checked
further, so any account with `is_admin_active=true` passes; `manage_admins`
is granted to `super_admin` only, never via the map. -/
theorem claim_C3_amended (u : Account) (c : Capability) :
    can u c =
      (if u.user_type == "super_admin" then true
       else if c = Capability.manage_admins then false
       else u.is_admin_active && permGet u.admin_permissions (capKey c)) := by
  cases c
  case manage_admins =>
    cases hb : u.user_type == "super_admin" <;> simp at hb <;>
      simp [can, can_manage_admins, hb]
  all_goals
    simp [can, can_manage_properties, can_manage_users, can_manage_premium,
      can_manage_payments, can_manage_system, can_view_logs, can_delete_data,
      can_export_data, can_manage_content, capKey]

/-- Helper: the bulk reject action never touches the applicant accounts. -/
lemma reject_applications_applicants (now rv : Nat) (qs : List AppState) :
    (reject_applications now rv qs).1.map (fun t => t.applicant) =
      qs.map (fun t => t.applicant) := by
  induction qs with
  | nil => simp [reject_applications]
  | cons s rest ih =>
    by_cases hs : eligibleReject s <;> simp [reject_applications, hs, ih]

/-- Helper: the bulk request-more-info action never touches the applicant
accounts. -/
lemma request_more_info_applicants (now rv : Nat) (qs : List AppState) :
    (request_more_info now rv qs).1.map (fun t => t.applicant) =
      qs.map (fun t => t.applicant) := by
  induction qs with
  | nil => simp [request_more_info]
  | cons s rest ih =>
    by_cases hs : eligibleRequestInfo s <;>
      simp [request_more_info, hs, ih]

/-- C1: approving a pending or under_review application — through the
single-application review path or through the bulk action — yields, all
together: status approved, both review stamps set, and the linked account
active, verified and timestamped. -/
theorem claim_C1_approval_cascade (now rv : Nat) (s : AppState)
    (h : s.app.status = "pending" ∨ s.app.status = "under_review") :
    ApprovedAllSet now rv (singleReview now rv "approved" s) ∧
      approve_applications now rv [s] = ([approveOne now rv s], 1) ∧
      ApprovedAllSet now rv (approveOne now rv s) := by
  refine ⟨?_, ?_, ?_⟩
  · rcases h with h | h <;>
      simp [singleReview, save_model, ApprovedAllSet, h]
  · rcases h with h | h <;>
      simp [approve_applications, eligibleApprove, h]
  · simp [ApprovedAllSet, approveOne]

/-- C1 witness: the theorem applied to a concrete pending application. -/
theorem claim_C1_approval_cascade_witness :
    (sPend.app.status = "pending" ∨ sPend.app.status = "under_review") ∧
      (ApprovedAllSet 5 7 (singleReview 5 7 "approved" sPend) ∧
        approve_applications 5 7 [sPend] = ([approveOne 5 7 sPend], 1) ∧
        ApprovedAllSet 5 7 (approveOne 5 7 sPend)) :=
  ⟨Or.inl rfl, claim_C1_approval_cascade 5 7 sPend (Or.inl rfl)⟩

/-- C2 counterexample: the bulk reject action transitions a pending
application (count 1) yet leaves its previously active, verified applicant
account active and verified — the claimed lockout does not happen on the
bulk path. -/
theorem claim_C2_counterexample :
    (reject_applications 3 4 [sActiveVerified]).2 = 1 ∧
      (reject_applications 3 4 [sActiveVerified]).1.map
          (fun t => t.app.status) = ["rejected"] ∧
      (reject_applications 3 4 [sActiveVerified]).1.map
          (fun t => t.applicant.is_active) = [true] ∧
      (reject_applications 3 4 [sActiveVerified]).1.map
          (fun t => t.applicant.is_verified) = [true] := by
  decide

/-- C2 amended: the reject / needs_info lockout (account forced inactive
and unverified, even if previously verified) holds on the
single-application review path for every eligible state; the bulk reject
and request-more-info variants update only the application rows and leave
every applicant account unchanged. -/
theorem claim_C2_lockout_single_path (now rv : Nat) (s : AppState)
    (qs : List AppState) :
    ((s.app.status = "pending" ∨ s.app.status = "under_review" ∨
        s.app.status = "needs_info") →
      (singleReview now rv "rejected" s).applicant.is_active = false ∧
        (singleReview now rv "rejected" s).applicant.is_verified = false) ∧
    ((s.app.status = "pending" ∨ s.app.status = "under_review") →
      (singleReview now rv "needs_info" s).applicant.is_active = false ∧
        (singleReview now rv "needs_info" s).applicant.is_verified = false) ∧
    (reject_applications now rv qs).1.map (fun t => t.applicant) =
      qs.map (fun t => t.applicant) ∧
    (request_more_info now rv qs).1.map (fun t => t.applicant) =
      qs.map (fun t => t.applicant) := by
  refine ⟨?_, ?_, reject_applications_applicants now rv qs,
    request_more_info_applicants now rv qs⟩
  · intro h
    rcases h with h | h | h <;>
      simp [singleReview, save_model, h]
  · intro h
    rcases h with h | h <;>
      simp [singleReview, save_model, h]

/-- C2 witness: the amended theorem applied to a concrete pending
application with an active, verified applicant. -/
theorem claim_C2_lockout_single_path_witness :
    (sActiveVerified.app.status = "pending" ∨
        sActiveVerified.app.status = "under_review" ∨
        sActiveVerified.app.status = "needs_info") ∧
      ((singleReview 3 4 "rejected" sActiveVerified).applicant.is_active =
          false ∧
        (singleReview 3 4 "rejected" sActiveVerified).applicant.is_verified =
          false) :=
  ⟨Or.inl rfl,
    (claim_C2_lockout_single_path 3 4 sActiveVerified []).1 (Or.inl rfl)⟩

/-- C6 counterexample: an application in status needs_info is silently
skipped by the bulk approve action (it stays needs_info and the returned
count is 0), although the claim includes needs_info in the eligible set. -/
theorem claim_C6_counterexample :
    approve_applications 2 3 [sNeedsInfo] = ([sNeedsInfo], 0) ∧
      sNeedsInfo.app.status = "needs_info" := by
  decide

/-- C6 amended: the bulk approve action transitions exactly the supplied
applications whose status is pending or under_review (the filter
`eligibleApprove`), silently leaves every other row unchanged, and returns
the number of rows transitioned. -/
theorem claim_C6_bulk_approve_shape (now rv : Nat) (qs : List AppState) :
    approve_applications now rv qs =
      (qs.map (fun s =>
         if eligibleApprove s then approveOne now rv s else s),
       (qs.filter eligibleApprove).length) := by
  induction qs with
  | nil => simp [approve_applications]
  | cons s rest ih =>
    by_cases hs : eligibleApprove s <;>
      simp [approve_applications, List.filter_cons, hs, ih]

/-- C7: invoking bulk approve or bulk reject on an application already in a
terminal status (approved or rejected) affects 0 records and returns the
row unchanged. -/
theorem claim_C7_terminal_idempotence (now rv : Nat) (s : AppState)
    (h : s.app.status = "approved" ∨ s.app.status = "rejected") :
    approve_applications now rv [s] = ([s], 0) ∧
      reject_applications now rv [s] = ([s], 0) := by
  rcases h with h | h <;>
    simp [approve_applications, reject_applications, eligibleApprove,
      eligibleReject, h]

/-- C7 witness: the theorem applied to a concrete approved application. -/
theorem claim_C7_terminal_idempotence_witness :
    (sApproved.app.status = "approved" ∨ sApproved.app.status = "rejected") ∧
      (approve_applications 8 9 [sApproved] = ([sApproved], 0) ∧
        reject_applications 8 9 [sApproved] = ([sApproved], 0)) :=
  ⟨Or.inl rfl, claim_C7_terminal_idempotence 8 9 sApproved (Or.inl rfl)⟩

/-- C5 counterexample: rejecting a concrete pending permission request in
a store with no conflicting row stores an audit entry with
`is_high_risk = true` — the caller passes `False`, but the action type
`permission` is in the save-time high-risk set, so the claim's "the stored
audit entry has is_high_risk=false" fails. -/
theorem claim_C5_counterexample :
    (reject_request 9 1 reqPending normalAdmin [reqPending] "nope").log.map
        (fun e => (e.action_type, e.is_high_risk)) =
      some ("permission", true) := by
  decide

/-- C5 amended: when no other stored request row already has the same
(requesting_admin, permission_type) with status rejected, rejecting the
request updates its row to status rejected with reviewed_at, reviewed_by
and review_notes set, leaves the requesting admin's account (hence its
permissions map) unchanged, creates a notification for the requester, and
stores an audit entry with action type `permission` whose `is_high_risk`
flag is forced to true by the write-time derivation although the caller
supplies false; when such a conflicting row exists, the save raises the
unique-together integrity error and neither the status update, the audit
entry nor the notification happens. -/
theorem claim_C5_reject_contract (now sid : Nat) (req : PermRequest)
    (admin : Account) (stored : List PermRequest) (notes : String) :
    (uniqueConflict stored req "rejected" = false →
      (reject_request now sid req admin stored notes).stored =
          stored.map (fun r =>
            if r.id == req.id then
              { req with
                  status := "rejected", reviewed_at := some now,
                  reviewed_by := some sid, review_notes := notes }
            else r) ∧
        (reject_request now sid req admin stored notes).admin = admin ∧
        (reject_request now sid req admin stored notes).integrityError =
          false ∧
        (reject_request now sid req admin stored notes).log.map
            (fun e => (e.action_type, e.is_high_risk)) =
          some ("permission", true) ∧
        (reject_request now sid req admin stored notes).notification.map
            (fun n => (n.notification_type, n.related_adminId)) =
          some ("permission_request", req.requesting_adminId)) ∧
    (uniqueConflict stored req "rejected" = true →
      (reject_request now sid req admin stored notes).integrityError =
          true ∧
        (reject_request now sid req admin stored notes).stored = stored ∧
        (reject_request now sid req admin stored notes).admin = admin ∧
        (reject_request now sid req admin stored notes).log = none ∧
        (reject_request now sid req admin stored notes).notification =
          none) := by
  constructor
  · intro hc
    simp [reject_request, hc, logSave, high_risk_actions]
  · intro hc
    simp [reject_request, hc]

/-- C5 witness: the theorem's no-conflict branch applied to a concrete
pending request in a store holding only that request. -/
theorem claim_C5_reject_contract_witness :
    uniqueConflict [reqPending] reqPending "rejected" = false ∧
      ((reject_request 9 1 reqPending normalAdmin [reqPending] "nope").stored
          =
          [reqPending].map (fun r =>
            if r.id == reqPending.id then
              { reqPending with
                  status := "rejected", reviewed_at := some 9,
                  reviewed_by := some 1, review_notes := "nope" }
            else r) ∧
        (reject_request 9 1 reqPending normalAdmin [reqPending] "nope").admin
          = normalAdmin ∧
        (reject_request 9 1 reqPending normalAdmin
            [reqPending] "nope").integrityError = false ∧
        (reject_request 9 1 reqPending normalAdmin [reqPending] "nope").log.map
            (fun e => (e.action_type, e.is_high_risk)) =
          some ("permission", true) ∧
        (reject_request 9 1 reqPending normalAdmin
              [reqPending] "nope").notification.map
            (fun n => (n.notification_type, n.related_adminId)) =
          some ("permission_request", reqPending.requesting_adminId)) :=
  ⟨by decide,
    (claim_C5_reject_contract 9 1 reqPending normalAdmin [reqPending]
        "nope").1 (by decide)⟩

/-- C8: submission of a permission request by an active admin with
non-empty form fields: already holding the permission yields the
already-granted refusal; an existing pending request for the same
(admin, permission) yields the already-pending refusal; and when every
earlier request for that permission is resolved (no pending row), a new
pending request row is created. -/
theorem claim_C8_submission_preconditions (userId newId : Nat) (u : Account)
    (existing : List PermRequest) (p reason justification : String)
    (hactive : u.is_admin_active = true) (hp : p ≠ "") (hr : reason ≠ "")
    (hj : justification ≠ "") :
    (permGet u.admin_permissions p = true →
      normal_admin_request_permission userId u existing newId p reason
          justification = .alreadyGranted) ∧
    (permGet u.admin_permissions p = false →
      (∃ r ∈ existing, r.requesting_adminId = userId ∧
          r.permission_type = p ∧ r.status = "pending") →
      normal_admin_request_permission userId u existing newId p reason
          justification = .alreadyPending) ∧
    (permGet u.admin_permissions p = false →
      (∀ r ∈ existing, r.requesting_adminId = userId →
          r.permission_type = p → r.status ≠ "pending") →
      normal_admin_request_permission userId u existing newId p reason
          justification =
        .created
          { id := newId, requesting_adminId := userId, permission_type := p,
            reason := reason, justification := justification,
            status := "pending", reviewed_at := none, reviewed_by := none,
            review_notes := "", granted_at := none }) := by
  have hperm : get_admin_permissions u = u.admin_permissions := by
    simp [get_admin_permissions, hactive]
  refine ⟨?_, ?_, ?_⟩
  · intro hgr
    simp [normal_admin_request_permission, hp, hr, hj, hperm, hgr]
  · intro hgr hex
    have hany : existing.any (fun r =>
        r.requesting_adminId == userId && r.permission_type == p
          && r.status == "pending") = true := by
      rcases hex with ⟨r, hmem, h1, h2, h3⟩
      refine List.any_eq_true.mpr ⟨r, hmem, ?_⟩
      simp [h1, h2, h3]
    simp [normal_admin_request_permission, hp, hr, hj, hperm, hgr, hany]
  · intro hgr hall
    have hany : existing.any (fun r =>
        r.requesting_adminId == userId && r.permission_type == p
          && r.status == "pending") = false := by
      rw [Bool.eq_false_iff]
      intro hcontra
      rcases List.any_eq_true.mp hcontra with ⟨r, hmem, hb⟩
      simp only [Bool.and_eq_true, beq_iff_eq] at hb
      exact hall r hmem hb.1.1 hb.1.2 hb.2
    simp [normal_admin_request_permission, hp, hr, hj, hperm, hgr, hany]

/-- C8 witness: the theorem's created-outcome conjunct applied to a
concrete admin with no permission and no prior request. -/
theorem claim_C8_submission_preconditions_witness :
    normal_admin_request_permission 2 normalAdmin [] 10 "manage_users" "r"
        "j" =
      .created
        { id := 10, requesting_adminId := 2,
          permission_type := "manage_users", reason := "r",
          justification := "j", status := "pending", reviewed_at := none,
          reviewed_by := none, review_notes := "", granted_at := none } :=
  (claim_C8_submission_preconditions 2 10 normalAdmin [] "manage_users" "r"
      "j" rfl (by decide) (by decide) (by decide)).2.2 (by decide)
    (by intro r hmem; cases hmem)

/-- C9 counterexample: registration of a buyer account itself sets
`is_verified = true` (with a verification timestamp), with no approval
transition involved — so verified does not become true only through
approval. -/
theorem claim_C9_counterexample :
    agentAcct.is_verified = false ∧
      (register 4 { agentAcct with user_type := "buyer" }).is_verified =
        true ∧
      (register 4 { agentAcct with user_type := "buyer" }).verification_date
        = some 4 := by
  decide

/-- C9 amended: an agent account is created unverified and inactive at
registration, and no non-approval review operation turns verified on: the
single-path reject and needs_info transitions leave an unverified
applicant unverified, and the bulk reject / request-more-info actions leave
every applicant account unchanged; buyer and broker registration, by
contrast, sets verified=true directly at creation. -/
theorem claim_C9_verified_transitions (now rv : Nat) (u : Account)
    (s : AppState) (qs : List AppState) :
    (u.user_type = "agent" →
      (register now u).is_verified = false ∧
        (register now u).is_active = false) ∧
    (u.user_type ≠ "agent" → (register now u).is_verified = true) ∧
    (s.applicant.is_verified = false →
      (singleReview now rv "rejected" s).applicant.is_verified = false) ∧
    (s.applicant.is_verified = false →
      (singleReview now rv "needs_info" s).applicant.is_verified = false) ∧
    (reject_applications now rv qs).1.map (fun t => t.applicant) =
      qs.map (fun t => t.applicant) ∧
    (request_more_info now rv qs).1.map (fun t => t.applicant) =
      qs.map (fun t => t.applicant) := by
  refine ⟨?_, ?_, ?_, ?_, reject_applications_applicants now rv qs,
    request_more_info_applicants now rv qs⟩
  · intro h
    simp [register, h]
  · intro h
    simp [register, h]
  · intro h
    by_cases hs : s.app.status = "rejected" <;>
      simp [singleReview, save_model, hs, h]
  · intro h
    by_cases hs : s.app.status = "needs_info" <;>
      simp [singleReview, save_model, hs, h]

/-- C9 witness: the theorem applied to a concrete agent registration. -/
theorem claim_C9_verified_transitions_witness :
    agentAcct.user_type = "agent" ∧
      ((register 4 agentAcct).is_verified = false ∧
        (register 4 agentAcct).is_active = false) :=
  ⟨rfl, (claim_C9_verified_transitions 4 0 agentAcct sPend []).1 rfl⟩

/-- Helper: setting a key in the permission dictionary makes its lookup
return the stored value. -/
lemma permGet_permSet_self (perms : List (String × Bool)) (k : String)
    (v : Bool) : permGet (permSet perms k v) k = v := by
  induction perms with
  | nil => simp [permSet, permGet]
  | cons kv rest ih =>
    by_cases hk : kv.1 == k <;>
      simp [permSet, permGet, hk, ih]

/-- C10: approving a pending permission request when another stored request
row already has the same (requesting_admin, permission_type) and status
approved raises the unique-together integrity error (error flag true, the
request store unchanged, no log or notification written), yet the
requesting admin's permission bit has already been granted and saved before
the failure — the state change is not atomic on that error. -/
theorem claim_C10_integrity_error_nonatomic (now sid : Nat)
    (req : PermRequest) (admins : Nat → Account)
    (stored : List PermRequest) (_hpend : req.status = "pending")
    (hconf : ∃ r ∈ stored, r.id ≠ req.id ∧
      r.requesting_adminId = req.requesting_adminId ∧
      r.permission_type = req.permission_type ∧ r.status = "approved") :
    (approve_request now sid req admins stored).2.2 = true ∧
      (approve_request now sid req admins stored).2.1 = stored ∧
      permGet ((approve_request now sid req admins stored).1
          req.requesting_adminId).admin_permissions req.permission_type =
        true := by
  have hc : uniqueConflict stored req "approved" = true := by
    rcases hconf with ⟨r, hmem, h1, h2, h3, h4⟩
    refine List.any_eq_true.mpr ⟨r, hmem, ?_⟩
    simp [h1, h2, h3, h4]
  refine ⟨?_, ?_, ?_⟩
  · simp [approve_request, hc]
  · simp [approve_request, hc]
  · simp only [approve_request, hc, if_true]
    simp [permGet_permSet_self]

/-- C10 witness: the theorem applied to a concrete store holding an earlier
approved request for the same admin and permission. -/
theorem claim_C10_integrity_error_nonatomic_witness :
    reqPending.status = "pending" ∧
      ((approve_request 9 7 reqPending (fun _ => normalAdmin)
            [reqApprovedEarlier, reqPending]).2.2 = true ∧
        (approve_request 9 7 reqPending (fun _ => normalAdmin)
            [reqApprovedEarlier, reqPending]).2.1 =
          [reqApprovedEarlier, reqPending] ∧
        permGet ((approve_request 9 7 reqPending (fun _ => normalAdmin)
              [reqApprovedEarlier, reqPending]).1
            reqPending.requesting_adminId).admin_permissions
          reqPending.permission_type = true) :=
  ⟨rfl,
    claim_C10_integrity_error_nonatomic 9 7 reqPending (fun _ => normalAdmin)
      [reqApprovedEarlier, reqPending] rfl
      ⟨reqApprovedEarlier, by decide, by decide, by decide, by decide,
        by decide⟩⟩

end RealEstateNet
